import Mathlib

/-!
Verification of the WeChat articles plugin (provider/wechat_articles.py and
tools/wechat_articles_tool.py), embedded shallowly.

The tool receives a parameter mapping of Python values, validates it, and
either emits text error messages or calls an external scraping library and
emits one JSON message.  Python values are modelled by `PyVal`, the parameter
mapping by an association list, the scraping library by an oracle structure
`ScrapeLib` whose operations may fail with a Python exception (`PyExc`), and
the generator of `ToolInvokeMessage`s by a list of `ToolMsg` together with a
trace of the library calls that were made.
-/

namespace WechatPlugin

/-- A Python value, as far as the plugin inspects one: `None`, `str`, `int`,
`list` and `dict` (with string keys).  These are the shapes the tool's
parameter bag and the library's raw records can take. -/
inductive PyVal where
  | none
  | str (s : String)
  | int (n : Int)
  | list (xs : List PyVal)
  | dict (kvs : List (String × PyVal))

/-- Python truthiness (`bool(v)`) for the modelled values: `None`, the empty
string, `0`, the empty list and the empty dict are falsy. -/
def truthy : PyVal → Bool
  | .none => false
  | .str s => !(s == "")
  | .int n => !(n == 0)
  | .list xs => !xs.isEmpty
  | .dict kvs => !kvs.isEmpty

mutual

/-- `repr(v)`: Python `repr`, used by `str` on containers.  String escaping
inside `repr` of a `str` is not modelled (the plugin never formats a container
holding special characters). -/
def pyRepr : PyVal → String
  | .none => "None"
  | .str s => "\x27" ++ s ++ "\x27"
  | .int n => toString n
  | .list xs => "[" ++ String.intercalate ", " (pyReprList xs) ++ "]"
  | .dict kvs => "\x7b" ++ String.intercalate ", " (pyReprDict kvs) ++ "\x7d"

def pyReprList : List PyVal → List String
  | [] => []
  | x :: xs => pyRepr x :: pyReprList xs

def pyReprDict : List (String × PyVal) → List String
  | [] => []
  | (k, v) :: kvs => ("\x27" ++ k ++ "\x27: " ++ pyRepr v) :: pyReprDict kvs

end

/-- `str(v)`: Python `str`, as used by `str(begin)`, `str(count)` and the
f-string interpolation of `action`. -/
def pyStr : PyVal → String
  | .none => "None"
  | .str s => s
  | .int n => toString n
  | .list xs => pyRepr (.list xs)
  | .dict kvs => pyRepr (.dict kvs)

/-- `d.get(k, default)` on a Python dict modelled as an association list:
the first binding of `k` wins, `default` is returned when `k` is absent. -/
def dictGet (d : List (String × PyVal)) (k : String) (default : PyVal) : PyVal :=
  match d.lookup k with
  | some v => v
  | Option.none => default

/-- The tool's parameter bag (`tool_parameters`). -/
def Params := List (String × PyVal)

/-- `tool_parameters.get(k)` (default `None`). -/
def pyGet (p : Params) (k : String) : PyVal := dictGet p k .none

/-- `tool_parameters.get(k, d)`. -/
def pyGetD (p : Params) (k : String) (d : PyVal) : PyVal := dictGet p k d

/-- A Python exception as the tool's `except` clauses distinguish them:
`requests.exceptions.RequestException`, `ValueError`, and everything else. -/
inductive PyExc where
  | requestException (msg : String)
  | valueError (msg : String)
  | other (msg : String)

/-- The text produced by the three `except` clauses of `_invoke` for an
exception `e` (`str(e)` is `e`'s carried message). -/
def excMessage : PyExc → String
  | .requestException m => "Network error occurred: " ++ m
  | .valueError m => "Invalid parameter value: " ++ m
  | .other m => "An error occurred while invoking the tool: " ++ m

/-- One `ToolInvokeMessage`: either `create_text_message` or
`create_json_message` (whose payload is a Python dict, kept as a `PyVal`). -/
inductive ToolMsg where
  | text (s : String)
  | json (v : PyVal)

/-- The external scraping library (`wechatarticles`), as an oracle: each
operation takes the arguments the tool passes and either returns a value or
raises.  `get_urls` belongs to `PublicAccountsWeb(cookie, token)`; `comments`
and `read_like_nums` to `ArticlesInfo(appmsg_token, wechat_cookie)`, called
on `article_url`. -/
structure ScrapeLib where
  get_urls : PyVal → PyVal → PyVal → PyVal → String → String →
    Except PyExc (List (List (String × PyVal)))
  comments : PyVal → PyVal → PyVal → Except PyExc PyVal
  read_like_nums : PyVal → PyVal → PyVal → Except PyExc (PyVal × PyVal × PyVal)

/-- A record of one outbound library call made during an invocation. -/
inductive LibCall where
  | getUrls (cookie token nickname biz : PyVal) (beginS countS : String)
  | comments (appmsg_token wechat_cookie article_url : PyVal)
  | readLikeNums (appmsg_token wechat_cookie article_url : PyVal)

/-- `_parse_article_urls_response`: each raw record is mapped to a dict with
`title`/`link`/`update_time`/`cover` (defaults `""`/`""`/`0`/`""`), and
`total_count` is the length of the input list. -/
def parse_article_urls_response (article_data : List (List (String × PyVal))) : PyVal :=
  PyVal.dict [
    ("articles", PyVal.list (article_data.map (fun item =>
      PyVal.dict [
        ("title", dictGet item "title" (.str "")),
        ("link", dictGet item "link" (.str "")),
        ("update_time", dictGet item "update_time" (.int 0)),
        ("cover", dictGet item "cover" (.str ""))]))),
    ("total_count", PyVal.int article_data.length)]

/-- `_parse_article_details_response`: pass-through assembly of the dict. -/
def parse_article_details_response (comments read_num like_num old_like_num : PyVal) : PyVal :=
  PyVal.dict [
    ("comments", comments),
    ("read_num", read_num),
    ("like_num", like_num),
    ("old_like_num", old_like_num)]

/-- The `required_params` list of `_validate_common_parameters`. -/
def requiredCommonParams : List (String × String) :=
  [("cookie", "Cookie obtained from the WeChat official account platform"),
   ("token", "Token obtained from the WeChat official account platform"),
   ("nickname", "Nickname of the WeChat official account"),
   ("biz", "Biz identifier of the WeChat official account")]

/-- `isinstance(count, int) and 1 <= count <= 5` — the negation of the `count`
rejection test of `_validate_common_parameters`. -/
def countOK : PyVal → Bool
  | .int n => decide (1 ≤ n) && decide (n ≤ 5)
  | _ => false

/-- `_validate_common_parameters`: one missing-parameter error per falsy
required parameter, then a range error when `count` (default 5) is not an
integer in `[1, 5]`. -/
def validate_common_parameters (p : Params) : List String :=
  let errors := requiredCommonParams.foldl
    (fun errs q =>
      if truthy (pyGet p q.1) then errs
      else errs ++ ["Missing required parameter: " ++ q.1 ++ ". " ++ q.2])
    []
  if countOK (pyGetD p "count" (.int 5)) then errors
  else errors ++ ["Parameter \x27count\x27 must be an integer between 1 and 5"]

/-- The `required_params` list of `_validate_details_parameters`. -/
def requiredDetailsParams : List (String × String) :=
  [("appmsg_token", "Appmsg_token obtained by capturing packets when opening WeChat official account articles"),
   ("wechat_cookie", "Cookie obtained by capturing packets when opening WeChat official account articles"),
   ("article_url", "URL of the WeChat official account article")]

/-- The Python type name of a modelled value, for the `AttributeError` text. -/
def pyTypeName : PyVal → String
  | .none => "NoneType"
  | .str _ => "str"
  | .int _ => "int"
  | .list _ => "list"
  | .dict _ => "dict"

/-- `s.startswith(pre)` on Python strings: `pre` is a prefix of `s`.
(Stated on the character lists so that it computes structurally.) -/
def pyStartsWith (s pre : String) : Bool :=
  pre.data.isPrefixOf s.data

/-- `_validate_details_parameters`: one missing-parameter error per falsy
required parameter, then, when `article_url` is truthy, the
`startswith("http")` format check — which raises `AttributeError` (an
`Exception`) when a truthy non-string reaches it, hence the `Except`. -/
def validate_details_parameters (p : Params) : Except PyExc (List String) :=
  let errors := requiredDetailsParams.foldl
    (fun errs q =>
      if truthy (pyGet p q.1) then errs
      else errs ++
        ["Missing required parameter for get_article_details: " ++ q.1 ++ ". " ++ q.2])
    []
  let article_url := pyGet p "article_url"
  if truthy article_url then
    match article_url with
    | .str s =>
        if pyStartsWith s "http" then .ok errors
        else .ok (errors ++ ["Parameter \x27article_url\x27 must be a valid URL"])
    | v => .error (.other
        ("\x27" ++ pyTypeName v ++ "\x27 object has no attribute \x27startswith\x27"))
  else .ok errors

/-- `action == "s"` for a Python value (equality with a string literal is
`False` for every non-`str` value). -/
def pyEqStr : PyVal → String → Bool
  | .str s, t => s == t
  | _, _ => false

/-- `_invoke`: validation, dispatch, library calls and message emission.
Returns the emitted messages in order together with the trace of library
calls made.  The `try` block of the source surrounds everything after the
common-parameter check, so a raised `PyExc` there becomes one text message
via `excMessage`. -/
def invoke (lib : ScrapeLib) (p : Params) : List ToolMsg × List LibCall :=
  let action := pyGet p "action"
  let beginV := pyGetD p "begin" (.int 0)
  let countV := pyGetD p "count" (.int 5)
  if truthy action = false then
    ([.text "Missing required parameter: action"], [])
  else if (pyEqStr action "get_article_urls" || pyEqStr action "get_article_details") = false then
    ([.text ("Invalid action: " ++ pyStr action ++
        ". Supported actions are get_article_urls and get_article_details")], [])
  else
    let commonErrors := validate_common_parameters p
    if commonErrors.isEmpty = false then
      (commonErrors.map ToolMsg.text, [])
    else
      let cookie := pyGet p "cookie"
      let token := pyGet p "token"
      let nickname := pyGet p "nickname"
      let biz := pyGet p "biz"
      if pyEqStr action "get_article_urls" then
        let callU := LibCall.getUrls cookie token nickname biz (pyStr beginV) (pyStr countV)
        match lib.get_urls cookie token nickname biz (pyStr beginV) (pyStr countV) with
        | .ok article_data => ([.json (parse_article_urls_response article_data)], [callU])
        | .error e => ([.text (excMessage e)], [callU])
      else
        match validate_details_parameters p with
        | .error e => ([.text (excMessage e)], [])
        | .ok detailsErrors =>
          if detailsErrors.isEmpty = false then
            (detailsErrors.map ToolMsg.text, [])
          else
            let appmsg_token := pyGet p "appmsg_token"
            let wechat_cookie := pyGet p "wechat_cookie"
            let article_url := pyGet p "article_url"
            let callC := LibCall.comments appmsg_token wechat_cookie article_url
            match lib.comments appmsg_token wechat_cookie article_url with
            | .error e => ([.text (excMessage e)], [callC])
            | .ok comments =>
              let callR := LibCall.readLikeNums appmsg_token wechat_cookie article_url
              match lib.read_like_nums appmsg_token wechat_cookie article_url with
              | .error e => ([.text (excMessage e)], [callC, callR])
              | .ok (read_num, like_num, old_like_num) =>
                ([.json (parse_article_details_response comments read_num like_num old_like_num)],
                 [callC, callR])

/-- `WechatArticlesProvider.validate_credentials`: the body is `pass`, so it
returns `None` (here `()`) for every credentials mapping and never raises. -/
def validate_credentials (_credentials : List (String × PyVal)) : Except PyExc Unit :=
  Except.ok ()


/-! ### Helper lemmas shared by the claim theorems -/

/-- `validate_common_parameters` collects exactly one missing-parameter
message per falsy required common parameter, in source order, followed by the
`count` range message when `count` fails its check. -/
theorem validate_common_eq (p : Params) :
    validate_common_parameters p =
      (requiredCommonParams.filter (fun q => !truthy (pyGet p q.1))).map
        (fun q => "Missing required parameter: " ++ q.1 ++ ". " ++ q.2) ++
      (if countOK (pyGetD p "count" (.int 5)) then []
       else ["Parameter \x27count\x27 must be an integer between 1 and 5"]) := by
  simp only [validate_common_parameters, requiredCommonParams, List.foldl_cons, List.foldl_nil,
    List.filter_cons, List.filter_nil]
  cases hc : truthy (pyGet p "cookie") <;> cases ht : truthy (pyGet p "token") <;>
    cases hn : truthy (pyGet p "nickname") <;> cases hb : truthy (pyGet p "biz") <;>
    cases hk : countOK (pyGetD p "count" (PyVal.int 5)) <;> simp

/-- The missing-parameter messages of `_validate_details_parameters`, one per
falsy required details parameter, in source order. -/
def detailsMissing (p : Params) : List String :=
  (requiredDetailsParams.filter (fun q => !truthy (pyGet p q.1))).map
    (fun q => "Missing required parameter for get_article_details: " ++ q.1 ++ ". " ++ q.2)

/-- When `article_url` is falsy, `_validate_details_parameters` returns the
missing-parameter messages only (the URL-format check is skipped). -/
theorem validate_details_eq_falsy (p : Params)
    (h : truthy (pyGet p "article_url") = false) :
    validate_details_parameters p = .ok (detailsMissing p) := by
  simp only [validate_details_parameters, detailsMissing, requiredDetailsParams,
    List.foldl_cons, List.foldl_nil, List.filter_cons, List.filter_nil, h]
  cases ha : truthy (pyGet p "appmsg_token") <;> cases hw : truthy (pyGet p "wechat_cookie") <;>
    simp [h]

/-- When `article_url` is a non-empty string, `_validate_details_parameters`
returns the missing-parameter messages followed by the URL-format message
exactly when the string does not start with `"http"`. -/
theorem validate_details_eq_str (p : Params) (s : String)
    (h : pyGet p "article_url" = .str s) (hs : s ≠ "") :
    validate_details_parameters p =
      .ok (detailsMissing p ++
        (if pyStartsWith s "http" then []
         else ["Parameter \x27article_url\x27 must be a valid URL"])) := by
  simp only [validate_details_parameters, detailsMissing, requiredDetailsParams,
    List.foldl_cons, List.foldl_nil, List.filter_cons, List.filter_nil, h]
  have htr : truthy (PyVal.str s) = true := by simp [truthy, hs]
  cases ha : truthy (pyGet p "appmsg_token") <;> cases hw : truthy (pyGet p "wechat_cookie") <;>
    cases hh : pyStartsWith s "http" <;> simp [htr, hs]

/-- With a valid `get_article_urls` action and no common-parameter errors,
`_invoke` reaches the URL-listing call and its outcome decides the output. -/
theorem invoke_urls_run (lib : ScrapeLib) (p : Params)
    (hact : pyGet p "action" = .str "get_article_urls")
    (hcommon : validate_common_parameters p = []) :
    invoke lib p =
      (match lib.get_urls (pyGet p "cookie") (pyGet p "token") (pyGet p "nickname")
          (pyGet p "biz") (pyStr (pyGetD p "begin" (.int 0))) (pyStr (pyGetD p "count" (.int 5))) with
       | .ok data =>
           ([ToolMsg.json (parse_article_urls_response data)],
            [LibCall.getUrls (pyGet p "cookie") (pyGet p "token") (pyGet p "nickname")
              (pyGet p "biz") (pyStr (pyGetD p "begin" (.int 0))) (pyStr (pyGetD p "count" (.int 5)))])
       | .error e =>
           ([ToolMsg.text (excMessage e)],
            [LibCall.getUrls (pyGet p "cookie") (pyGet p "token") (pyGet p "nickname")
              (pyGet p "biz") (pyStr (pyGetD p "begin" (.int 0))) (pyStr (pyGetD p "count" (.int 5)))])) := by
  simp +decide only [invoke, hact, hcommon, truthy, pyEqStr, List.isEmpty_nil]
  simp

/-- With a valid `get_article_details` action, no common-parameter errors and
no details-parameter errors, `_invoke` reaches the comments call and then the
read/like-counts call; their outcomes decide the output. -/
theorem invoke_details_run (lib : ScrapeLib) (p : Params)
    (hact : pyGet p "action" = .str "get_article_details")
    (hcommon : validate_common_parameters p = [])
    (hdet : validate_details_parameters p = .ok []) :
    invoke lib p =
      (match lib.comments (pyGet p "appmsg_token") (pyGet p "wechat_cookie") (pyGet p "article_url") with
       | .error e =>
           ([ToolMsg.text (excMessage e)],
            [LibCall.comments (pyGet p "appmsg_token") (pyGet p "wechat_cookie") (pyGet p "article_url")])
       | .ok c =>
           match lib.read_like_nums (pyGet p "appmsg_token") (pyGet p "wechat_cookie") (pyGet p "article_url") with
           | .error e =>
               ([ToolMsg.text (excMessage e)],
                [LibCall.comments (pyGet p "appmsg_token") (pyGet p "wechat_cookie") (pyGet p "article_url"),
                 LibCall.readLikeNums (pyGet p "appmsg_token") (pyGet p "wechat_cookie") (pyGet p "article_url")])
           | .ok (r, l, o) =>
               ([ToolMsg.json (parse_article_details_response c r l o)],
                [LibCall.comments (pyGet p "appmsg_token") (pyGet p "wechat_cookie") (pyGet p "article_url"),
                 LibCall.readLikeNums (pyGet p "appmsg_token") (pyGet p "wechat_cookie") (pyGet p "article_url")])) := by
  simp +decide only [invoke, hact, hcommon, hdet, truthy, pyEqStr, List.isEmpty_nil]
  simp

/-- With a valid action and common-parameter errors present, `_invoke` emits
one text message per error and makes no library call. -/
theorem invoke_common_stop (lib : ScrapeLib) (p : Params)
    (hact : pyGet p "action" = .str "get_article_urls" ∨
            pyGet p "action" = .str "get_article_details")
    (hne : validate_common_parameters p ≠ []) :
    invoke lib p = ((validate_common_parameters p).map ToolMsg.text, []) := by
  have hE : (validate_common_parameters p).isEmpty = false := by
    cases h : validate_common_parameters p
    · exact absurd h hne
    · rfl
  rcases hact with h | h <;> simp +decide only [invoke, h, hE, truthy, pyEqStr] <;> simp

/-- With action `get_article_details`, no common-parameter errors and
details-parameter errors present, `_invoke` emits one text message per error
and makes no library call. -/
theorem invoke_details_stop (lib : ScrapeLib) (p : Params) (errs : List String)
    (hact : pyGet p "action" = .str "get_article_details")
    (hcommon : validate_common_parameters p = [])
    (hdet : validate_details_parameters p = .ok errs)
    (hne : errs ≠ []) :
    invoke lib p = (errs.map ToolMsg.text, []) := by
  have hE : errs.isEmpty = false := by
    cases h : errs
    · exact absurd h hne
    · rfl
  simp +decide only [invoke, hact, hcommon, hdet, hE, truthy, pyEqStr, List.isEmpty_nil]
  simp

/-! ### Example inputs used by the witnesses -/

/-- A concrete raw record, as the URL-listing example of the spec. -/
def sampleUrlRecord : List (String × PyVal) :=
  [("title", .str "A"), ("link", .str "http://x"), ("update_time", .int 100), ("cover", .str "c")]

/-- A concrete scraping library whose operations all succeed. -/
def sampleLib : ScrapeLib where
  get_urls := fun _ _ _ _ _ _ => .ok [sampleUrlRecord]
  comments := fun _ _ _ => .ok (.list [.str "hi"])
  read_like_nums := fun _ _ _ => .ok (.int 10, .int 2, .int 1)

/-- A concrete valid parameter bag for `get_article_urls`. -/
def sampleUrlsParams : Params :=
  [("action", .str "get_article_urls"), ("cookie", .str "ck"), ("token", .str "tk"),
   ("nickname", .str "nn"), ("biz", .str "bz")]

/-- A concrete valid parameter bag for `get_article_details`. -/
def sampleDetailsParams : Params :=
  [("action", .str "get_article_details"), ("cookie", .str "ck"), ("token", .str "tk"),
   ("nickname", .str "nn"), ("biz", .str "bz"),
   ("appmsg_token", .str "at"), ("wechat_cookie", .str "wc"),
   ("article_url", .str "http://a")]

/-! ### Claim theorems -/

/-- C1: for `action=get_article_urls` with valid parameters, the emitted JSON
message is exactly `_parse_article_urls_response` of the library's result list
(1:1 record mapping with defaults, `total_count` = length), and the library's
URL-listing operation is called once, with cookie, token, nickname, biz and
the stringified `begin` (default 0) and `count` (default 5). -/
theorem C1_get_article_urls_output (lib : ScrapeLib) (p : Params)
    (data : List (List (String × PyVal)))
    (hact : pyGet p "action" = .str "get_article_urls")
    (hcommon : validate_common_parameters p = [])
    (hlib : lib.get_urls (pyGet p "cookie") (pyGet p "token") (pyGet p "nickname")
        (pyGet p "biz") (pyStr (pyGetD p "begin" (.int 0)))
        (pyStr (pyGetD p "count" (.int 5))) = .ok data) :
    invoke lib p =
      ([ToolMsg.json (parse_article_urls_response data)],
       [LibCall.getUrls (pyGet p "cookie") (pyGet p "token") (pyGet p "nickname")
          (pyGet p "biz") (pyStr (pyGetD p "begin" (.int 0)))
          (pyStr (pyGetD p "count" (.int 5)))]) ∧
    parse_article_urls_response data =
      PyVal.dict [
        ("articles", PyVal.list (data.map (fun item =>
          PyVal.dict [
            ("title", dictGet item "title" (.str "")),
            ("link", dictGet item "link" (.str "")),
            ("update_time", dictGet item "update_time" (.int 0)),
            ("cover", dictGet item "cover" (.str ""))]))),
        ("total_count", PyVal.int data.length)] := by
  refine ⟨?_, rfl⟩
  rw [invoke_urls_run lib p hact hcommon, hlib]

/-- Witness for C1: the spec's concrete example, evaluated. -/
theorem C1_get_article_urls_output_witness :
    invoke sampleLib sampleUrlsParams =
      ([ToolMsg.json (PyVal.dict [
          ("articles", PyVal.list [PyVal.dict
            [("title", .str "A"), ("link", .str "http://x"),
             ("update_time", .int 100), ("cover", .str "c")]]),
          ("total_count", PyVal.int 1)])],
       [LibCall.getUrls (.str "ck") (.str "tk") (.str "nn") (.str "bz") "0" "5"]) :=
  (C1_get_article_urls_output sampleLib sampleUrlsParams [sampleUrlRecord] rfl rfl rfl).1

/-- C5: for `action=get_article_details` with valid parameters, the emitted
JSON message is the pass-through assembly of the comments list and the three
components of the read/like-counts tuple, and exactly those two library calls
are made, in that order. -/
theorem C5_get_article_details_output (lib : ScrapeLib) (p : Params)
    (c r l o : PyVal)
    (hact : pyGet p "action" = .str "get_article_details")
    (hcommon : validate_common_parameters p = [])
    (hdet : validate_details_parameters p = .ok [])
    (hc : lib.comments (pyGet p "appmsg_token") (pyGet p "wechat_cookie")
        (pyGet p "article_url") = .ok c)
    (hr : lib.read_like_nums (pyGet p "appmsg_token") (pyGet p "wechat_cookie")
        (pyGet p "article_url") = .ok (r, l, o)) :
    invoke lib p =
      ([ToolMsg.json (parse_article_details_response c r l o)],
       [LibCall.comments (pyGet p "appmsg_token") (pyGet p "wechat_cookie") (pyGet p "article_url"),
        LibCall.readLikeNums (pyGet p "appmsg_token") (pyGet p "wechat_cookie") (pyGet p "article_url")]) ∧
    parse_article_details_response c r l o =
      PyVal.dict [("comments", c), ("read_num", r), ("like_num", l), ("old_like_num", o)] := by
  refine ⟨?_, rfl⟩
  rw [invoke_details_run lib p hact hcommon hdet, hc, hr]

/-- Witness for C5: the spec's concrete example, evaluated. -/
theorem C5_get_article_details_output_witness :
    invoke sampleLib sampleDetailsParams =
      ([ToolMsg.json (PyVal.dict [
          ("comments", PyVal.list [.str "hi"]),
          ("read_num", PyVal.int 10), ("like_num", PyVal.int 2),
          ("old_like_num", PyVal.int 1)])],
       [LibCall.comments (.str "at") (.str "wc") (.str "http://a"),
        LibCall.readLikeNums (.str "at") (.str "wc") (.str "http://a")]) :=
  (C5_get_article_details_output sampleLib sampleDetailsParams
    (.list [.str "hi"]) (.int 10) (.int 2) (.int 1) rfl rfl rfl rfl rfl).1

/-- C6: when `action` is absent (`None`) or the empty string, the invocation
yields exactly the single literal text message
"Missing required parameter: action" and makes no library call. -/
theorem C6_missing_action (lib : ScrapeLib) (p : Params)
    (h : pyGet p "action" = PyVal.none ∨ pyGet p "action" = PyVal.str "") :
    invoke lib p = ([ToolMsg.text "Missing required parameter: action"], []) := by
  rcases h with h | h <;> simp +decide only [invoke, h, truthy] <;> simp

/-- Witness for C6: the empty parameter bag. -/
theorem C6_missing_action_witness :
    invoke sampleLib [] = ([ToolMsg.text "Missing required parameter: action"], []) :=
  C6_missing_action sampleLib [] (Or.inl rfl)

/-- C10: `validate_credentials` succeeds for every credentials mapping,
including the empty one; it is a no-op. -/
theorem C10_validate_credentials_noop :
    (∀ c : List (String × PyVal), validate_credentials c = Except.ok ()) ∧
    validate_credentials [] = Except.ok () :=
  ⟨fun _ => rfl, rfl⟩

/-- When `action` is falsy (absent, `None`, `""`, `0`, ...), `_invoke` stops
with the single missing-action message and no library call. -/
theorem invoke_action_falsy (lib : ScrapeLib) (p : Params)
    (h : truthy (pyGet p "action") = false) :
    invoke lib p = ([ToolMsg.text "Missing required parameter: action"], []) := by
  simp only [invoke, h]
  simp

/-- When `action` is truthy but equal to neither recognized value, `_invoke`
stops with the single invalid-action message and no library call. -/
theorem invoke_invalid_action (lib : ScrapeLib) (p : Params)
    (ht : truthy (pyGet p "action") = true)
    (h1 : pyEqStr (pyGet p "action") "get_article_urls" = false)
    (h2 : pyEqStr (pyGet p "action") "get_article_details" = false) :
    invoke lib p =
      ([ToolMsg.text ("Invalid action: " ++ pyStr (pyGet p "action") ++
          ". Supported actions are get_article_urls and get_article_details")], []) := by
  simp only [invoke, ht, h1, h2]
  simp

/-- Python `==` between a value and a string literal holds exactly for that
`str` value. -/
theorem pyEqStr_eq_true (v : PyVal) (s : String) :
    pyEqStr v s = true ↔ v = .str s := by
  cases v <;> simp [pyEqStr]

/-- When `_validate_details_parameters` itself raises (truthy non-string
`article_url`), the exception is caught by `_invoke`'s handlers. -/
theorem invoke_details_raise (lib : ScrapeLib) (p : Params) (e : PyExc)
    (hact : pyGet p "action" = .str "get_article_details")
    (hcommon : validate_common_parameters p = [])
    (hdet : validate_details_parameters p = .error e) :
    invoke lib p = ([ToolMsg.text (excMessage e)], []) := by
  simp +decide only [invoke, hact, hcommon, hdet, truthy, pyEqStr, List.isEmpty_nil]
  simp

/-- The situations in which an exception `e` is raised inside the dispatch of
`_invoke` after validation passes: the URL-listing call raises; the details
validator itself raises; the comments call raises; or the comments call
succeeds and the read/like-counts call raises. -/
def dispatchRaises (lib : ScrapeLib) (p : Params) (e : PyExc) : Prop :=
  (pyGet p "action" = .str "get_article_urls" ∧ validate_common_parameters p = [] ∧
    lib.get_urls (pyGet p "cookie") (pyGet p "token") (pyGet p "nickname") (pyGet p "biz")
      (pyStr (pyGetD p "begin" (.int 0))) (pyStr (pyGetD p "count" (.int 5))) = .error e) ∨
  (pyGet p "action" = .str "get_article_details" ∧ validate_common_parameters p = [] ∧
    validate_details_parameters p = .error e) ∨
  (pyGet p "action" = .str "get_article_details" ∧ validate_common_parameters p = [] ∧
    validate_details_parameters p = .ok [] ∧
    lib.comments (pyGet p "appmsg_token") (pyGet p "wechat_cookie")
      (pyGet p "article_url") = .error e) ∨
  (pyGet p "action" = .str "get_article_details" ∧ validate_common_parameters p = [] ∧
    validate_details_parameters p = .ok [] ∧
    (∃ c, lib.comments (pyGet p "appmsg_token") (pyGet p "wechat_cookie")
      (pyGet p "article_url") = .ok c) ∧
    lib.read_like_nums (pyGet p "appmsg_token") (pyGet p "wechat_cookie")
      (pyGet p "article_url") = .error e)

/-- C2: any exception raised inside the dispatch after validation passes is
surfaced as exactly one text message — prefixed "Network error occurred: "
for a requests exception, "Invalid parameter value: " for a `ValueError`,
"An error occurred while invoking the tool: " otherwise — and no JSON
message is emitted. -/
theorem C2_exception_single_text (lib : ScrapeLib) (p : Params) (e : PyExc)
    (h : dispatchRaises lib p e) :
    (invoke lib p).1 = [ToolMsg.text (excMessage e)] ∧
    (∀ m, e = PyExc.requestException m →
      excMessage e = "Network error occurred: " ++ m) ∧
    (∀ m, e = PyExc.valueError m →
      excMessage e = "Invalid parameter value: " ++ m) ∧
    (∀ m, e = PyExc.other m →
      excMessage e = "An error occurred while invoking the tool: " ++ m) ∧
    (∀ v, ToolMsg.json v ∉ (invoke lib p).1) := by
  have hmsg : (invoke lib p).1 = [ToolMsg.text (excMessage e)] := by
    rcases h with ⟨h1, h2, h3⟩ | ⟨h1, h2, h3⟩ | ⟨h1, h2, h3, h4⟩ | ⟨h1, h2, h3, ⟨c, hc⟩, hr⟩
    · rw [invoke_urls_run lib p h1 h2, h3]
    · rw [invoke_details_raise lib p e h1 h2 h3]
    · rw [invoke_details_run lib p h1 h2 h3, h4]
    · rw [invoke_details_run lib p h1 h2 h3, hc, hr]
  refine ⟨hmsg, ?_, ?_, ?_, ?_⟩
  · rintro m rfl; rfl
  · rintro m rfl; rfl
  · rintro m rfl; rfl
  · intro v
    rw [hmsg]
    simp

/-- A concrete scraping library all of whose operations raise a network
error. -/
def sampleNetErrLib : ScrapeLib where
  get_urls := fun _ _ _ _ _ _ => .error (.requestException "boom")
  comments := fun _ _ _ => .error (.requestException "boom")
  read_like_nums := fun _ _ _ => .error (.requestException "boom")

/-- Witness for C2: a network error in the URL-listing call surfaces as the
single prefixed text message. -/
theorem C2_exception_single_text_witness :
    (invoke sampleNetErrLib sampleUrlsParams).1 =
      [ToolMsg.text ("Network error occurred: " ++ "boom")] ∧
    ∀ v, ToolMsg.json v ∉ (invoke sampleNetErrLib sampleUrlsParams).1 := by
  have h := C2_exception_single_text sampleNetErrLib sampleUrlsParams
    (.requestException "boom") (Or.inl ⟨rfl, rfl, rfl⟩)
  exact ⟨h.2.1 "boom" rfl ▸ h.1, h.2.2.2.2⟩

/-- C3: for a recognized action, each of cookie/token/nickname/biz yields one
missing-parameter message when falsy; `count` (default 5) must be an integer
in [1,5] or one range message is collected; when any message is collected the
invocation emits one text message per error and stops with no library call. -/
theorem C3_common_validation :
    (∀ v : PyVal, countOK v = true ↔ ∃ n : Int, v = .int n ∧ 1 ≤ n ∧ n ≤ 5) ∧
    (∀ p : Params, validate_common_parameters p =
      (requiredCommonParams.filter (fun q => !truthy (pyGet p q.1))).map
        (fun q => "Missing required parameter: " ++ q.1 ++ ". " ++ q.2) ++
      (if countOK (pyGetD p "count" (.int 5)) then []
       else ["Parameter \x27count\x27 must be an integer between 1 and 5"])) ∧
    (∀ (lib : ScrapeLib) (p : Params),
      (pyGet p "action" = .str "get_article_urls" ∨
       pyGet p "action" = .str "get_article_details") →
      validate_common_parameters p ≠ [] →
      invoke lib p = ((validate_common_parameters p).map ToolMsg.text, [])) := by
  refine ⟨?_, validate_common_eq, invoke_common_stop⟩
  intro v
  cases v <;> simp [countOK]

/-- Witness for C3: all four common parameters missing and `count` out of
range collect five messages; the invocation stops with five text messages
and no library call. -/
theorem C3_common_validation_witness :
    invoke sampleLib [("action", PyVal.str "get_article_urls"), ("count", PyVal.int 7)] =
      ([ToolMsg.text "Missing required parameter: cookie. Cookie obtained from the WeChat official account platform",
        ToolMsg.text "Missing required parameter: token. Token obtained from the WeChat official account platform",
        ToolMsg.text "Missing required parameter: nickname. Nickname of the WeChat official account",
        ToolMsg.text "Missing required parameter: biz. Biz identifier of the WeChat official account",
        ToolMsg.text "Parameter \x27count\x27 must be an integer between 1 and 5"], []) :=
  C3_common_validation.2.2 sampleLib
    [("action", PyVal.str "get_article_urls"), ("count", PyVal.int 7)]
    (Or.inl rfl) (by decide)

/-- C4: for `action=get_article_details` after common validation passes,
appmsg_token/wechat_cookie/article_url each yield one missing-parameter
message when falsy, a present `article_url` must start with "http" or the
URL-format message is collected, and when any message is collected the
invocation emits one text message per error and stops with no library call. -/
theorem C4_details_validation :
    (∀ p : Params, truthy (pyGet p "article_url") = false →
      validate_details_parameters p = .ok (detailsMissing p)) ∧
    (∀ (p : Params) (s : String), pyGet p "article_url" = .str s → s ≠ "" →
      validate_details_parameters p =
        .ok (detailsMissing p ++
          (if pyStartsWith s "http" then []
           else ["Parameter \x27article_url\x27 must be a valid URL"]))) ∧
    (∀ (lib : ScrapeLib) (p : Params) (errs : List String),
      pyGet p "action" = .str "get_article_details" →
      validate_common_parameters p = [] →
      validate_details_parameters p = .ok errs → errs ≠ [] →
      invoke lib p = (errs.map ToolMsg.text, [])) :=
  ⟨validate_details_eq_falsy, validate_details_eq_str, invoke_details_stop⟩

/-- Witness for C4: `appmsg_token` missing and a non-`http` `article_url`
collect exactly the missing-parameter and URL-format messages, and the
invocation stops with those two text messages and no library call. -/
theorem C4_details_validation_witness :
    invoke sampleLib
      [("action", .str "get_article_details"), ("cookie", .str "ck"),
       ("token", .str "tk"), ("nickname", .str "nn"), ("biz", .str "bz"),
       ("wechat_cookie", .str "wc"), ("article_url", .str "ftp://x")] =
      ([ToolMsg.text "Missing required parameter for get_article_details: appmsg_token. Appmsg_token obtained by capturing packets when opening WeChat official account articles",
        ToolMsg.text "Parameter \x27article_url\x27 must be a valid URL"], []) :=
  C4_details_validation.2.2 sampleLib
    [("action", .str "get_article_details"), ("cookie", .str "ck"),
     ("token", .str "tk"), ("nickname", .str "nn"), ("biz", .str "bz"),
     ("wechat_cookie", .str "wc"), ("article_url", .str "ftp://x")]
    ["Missing required parameter for get_article_details: appmsg_token. Appmsg_token obtained by capturing packets when opening WeChat official account articles",
     "Parameter \x27article_url\x27 must be a valid URL"]
    rfl rfl rfl (by simp)

/-- `needle` occurs as a contiguous substring of `hay`. -/
def containsSubstr (needle hay : String) : Prop :=
  ∃ l r, hay = l ++ needle ++ r

/-- C7: for a truthy `action` outside the two recognized values, the
invocation yields exactly one text message — "Invalid action: <value>"
followed by both valid action names — and stops with no library call. -/
theorem C7_invalid_action (lib : ScrapeLib) (p : Params)
    (ht : truthy (pyGet p "action") = true)
    (h1 : pyEqStr (pyGet p "action") "get_article_urls" = false)
    (h2 : pyEqStr (pyGet p "action") "get_article_details" = false) :
    invoke lib p =
      ([ToolMsg.text ("Invalid action: " ++ pyStr (pyGet p "action") ++
          ". Supported actions are get_article_urls and get_article_details")], []) ∧
    containsSubstr ("Invalid action: " ++ pyStr (pyGet p "action"))
      ("Invalid action: " ++ pyStr (pyGet p "action") ++
        ". Supported actions are get_article_urls and get_article_details") ∧
    containsSubstr "get_article_urls"
      ("Invalid action: " ++ pyStr (pyGet p "action") ++
        ". Supported actions are get_article_urls and get_article_details") ∧
    containsSubstr "get_article_details"
      ("Invalid action: " ++ pyStr (pyGet p "action") ++
        ". Supported actions are get_article_urls and get_article_details") := by
  refine ⟨invoke_invalid_action lib p ht h1 h2, ?_, ?_, ?_⟩
  · exact ⟨"", ". Supported actions are get_article_urls and get_article_details",
      by rw [String.empty_append, String.append_assoc]⟩
  · refine ⟨"Invalid action: " ++ (pyStr (pyGet p "action") ++ ". Supported actions are "),
      " and get_article_details", ?_⟩
    apply String.ext
    simp only [String.data_append, List.append_assoc]
    rfl
  · refine ⟨"Invalid action: " ++
        (pyStr (pyGet p "action") ++ ". Supported actions are get_article_urls and "),
      "", ?_⟩
    apply String.ext
    simp only [String.data_append, List.append_assoc]
    rfl

/-- Witness for C7: `action="bogus"`. -/
theorem C7_invalid_action_witness :
    invoke sampleLib [("action", PyVal.str "bogus")] =
      ([ToolMsg.text "Invalid action: bogus. Supported actions are get_article_urls and get_article_details"],
       []) :=
  (C7_invalid_action sampleLib [("action", PyVal.str "bogus")] rfl rfl rfl).1

/-- C9: for `action=get_article_details` with all common parameters valid and
`article_url` absent or empty, the collected errors contain the
missing-parameter message for `article_url` but never the URL-format message
(the prefix check runs only on a truthy `article_url`), and the emitted
messages reflect that. -/
theorem C9_article_url_exclusive (lib : ScrapeLib) (p : Params)
    (hact : pyGet p "action" = .str "get_article_details")
    (hcommon : validate_common_parameters p = [])
    (hurl : truthy (pyGet p "article_url") = false) :
    validate_details_parameters p = .ok (detailsMissing p) ∧
    "Missing required parameter for get_article_details: article_url. URL of the WeChat official account article" ∈ detailsMissing p ∧
    "Parameter \x27article_url\x27 must be a valid URL" ∉ detailsMissing p ∧
    invoke lib p = ((detailsMissing p).map ToolMsg.text, []) ∧
    ToolMsg.text "Missing required parameter for get_article_details: article_url. URL of the WeChat official account article" ∈ (invoke lib p).1 ∧
    ToolMsg.text "Parameter \x27article_url\x27 must be a valid URL" ∉ (invoke lib p).1 := by
  have hd := validate_details_eq_falsy p hurl
  have hmem : "Missing required parameter for get_article_details: article_url. URL of the WeChat official account article" ∈ detailsMissing p := by
    simp only [detailsMissing, requiredDetailsParams, List.filter_cons, List.filter_nil]
    cases ha : truthy (pyGet p "appmsg_token") <;>
      cases hw : truthy (pyGet p "wechat_cookie") <;> simp [hurl]
  have hnot : "Parameter \x27article_url\x27 must be a valid URL" ∉ detailsMissing p := by
    simp only [detailsMissing, requiredDetailsParams, List.filter_cons, List.filter_nil]
    cases ha : truthy (pyGet p "appmsg_token") <;>
      cases hw : truthy (pyGet p "wechat_cookie") <;> simp +decide [hurl]
  have hne : detailsMissing p ≠ [] := List.ne_nil_of_mem hmem
  have hinv := invoke_details_stop lib p (detailsMissing p) hact hcommon hd hne
  refine ⟨hd, hmem, hnot, hinv, ?_, ?_⟩
  · rw [hinv]
    exact List.mem_map_of_mem _ hmem
  · rw [hinv]
    simpa using hnot

/-- Witness for C9: a details request with `article_url` absent. -/
theorem C9_article_url_exclusive_witness :
    validate_details_parameters
      [("action", .str "get_article_details"), ("cookie", .str "ck"),
       ("token", .str "tk"), ("nickname", .str "nn"), ("biz", .str "bz"),
       ("appmsg_token", .str "at"), ("wechat_cookie", .str "wc")] =
      .ok (detailsMissing
        [("action", .str "get_article_details"), ("cookie", .str "ck"),
         ("token", .str "tk"), ("nickname", .str "nn"), ("biz", .str "bz"),
         ("appmsg_token", .str "at"), ("wechat_cookie", .str "wc")]) ∧
    ToolMsg.text "Missing required parameter for get_article_details: article_url. URL of the WeChat official account article" ∈
      (invoke sampleLib
        [("action", .str "get_article_details"), ("cookie", .str "ck"),
         ("token", .str "tk"), ("nickname", .str "nn"), ("biz", .str "bz"),
         ("appmsg_token", .str "at"), ("wechat_cookie", .str "wc")]).1 ∧
    ToolMsg.text "Parameter \x27article_url\x27 must be a valid URL" ∉
      (invoke sampleLib
        [("action", .str "get_article_details"), ("cookie", .str "ck"),
         ("token", .str "tk"), ("nickname", .str "nn"), ("biz", .str "bz"),
         ("appmsg_token", .str "at"), ("wechat_cookie", .str "wc")]).1 := by
  have h := C9_article_url_exclusive sampleLib
    [("action", .str "get_article_details"), ("cookie", .str "ck"),
     ("token", .str "tk"), ("nickname", .str "nn"), ("biz", .str "bz"),
     ("appmsg_token", .str "at"), ("wechat_cookie", .str "wc")] rfl rfl rfl
  exact ⟨h.1, h.2.2.2.2.1, h.2.2.2.2.2⟩

/-- C8: every invocation yields a finite non-empty message sequence — exactly
one message, except when a batched validation step fails, in which case
exactly one text message per collected violation. -/
theorem C8_message_discipline (lib : ScrapeLib) (p : Params) :
    (invoke lib p).1 ≠ [] ∧
    ((invoke lib p).1.length = 1 ∨
     (invoke lib p).1 = (validate_common_parameters p).map ToolMsg.text ∨
     ∃ errs, validate_details_parameters p = .ok errs ∧ errs ≠ [] ∧
       (invoke lib p).1 = errs.map ToolMsg.text) := by
  by_cases hA : truthy (pyGet p "action") = false
  · rw [invoke_action_falsy lib p hA]
    exact ⟨by simp, Or.inl rfl⟩
  · simp only [Bool.not_eq_false] at hA
    by_cases hU : pyEqStr (pyGet p "action") "get_article_urls" = true
    · have hact := (pyEqStr_eq_true _ _).mp hU
      by_cases hC : validate_common_parameters p = []
      · rw [invoke_urls_run lib p hact hC]
        cases hgu : lib.get_urls (pyGet p "cookie") (pyGet p "token") (pyGet p "nickname")
            (pyGet p "biz") (pyStr (pyGetD p "begin" (.int 0)))
            (pyStr (pyGetD p "count" (.int 5))) with
        | error e => exact ⟨by simp, Or.inl (by simp)⟩
        | ok data => exact ⟨by simp, Or.inl (by simp)⟩
      · rw [invoke_common_stop lib p (Or.inl hact) hC]
        exact ⟨by simpa using hC, Or.inr (Or.inl (by simp))⟩
    · simp only [Bool.not_eq_true] at hU
      by_cases hD : pyEqStr (pyGet p "action") "get_article_details" = true
      · have hact := (pyEqStr_eq_true _ _).mp hD
        by_cases hC : validate_common_parameters p = []
        · cases hvd : validate_details_parameters p with
          | error e =>
            rw [invoke_details_raise lib p e hact hC hvd]
            exact ⟨by simp, Or.inl (by simp)⟩
          | ok errs =>
            by_cases hne : errs = []
            · subst hne
              rw [invoke_details_run lib p hact hC hvd]
              cases hc : lib.comments (pyGet p "appmsg_token") (pyGet p "wechat_cookie")
                  (pyGet p "article_url") with
              | error e => exact ⟨by simp, Or.inl (by simp)⟩
              | ok c =>
                cases hr : lib.read_like_nums (pyGet p "appmsg_token") (pyGet p "wechat_cookie")
                    (pyGet p "article_url") with
                | error e => exact ⟨by simp, Or.inl (by simp)⟩
                | ok t =>
                  obtain ⟨r, l, o⟩ := t
                  exact ⟨by simp, Or.inl (by simp)⟩
            · rw [invoke_details_stop lib p errs hact hC hvd hne]
              exact ⟨by simpa using hne, Or.inr (Or.inr ⟨errs, rfl, hne, by simp⟩)⟩
        · rw [invoke_common_stop lib p (Or.inr hact) hC]
          exact ⟨by simpa using hC, Or.inr (Or.inl (by simp))⟩
      · simp only [Bool.not_eq_true] at hD
        rw [invoke_invalid_action lib p hA hU hD]
        exact ⟨by simp, Or.inl rfl⟩

end WechatPlugin
